import Mathlib

/-!
Shallow embedding of the restaurant-booking voice agent (`bot.py`, `server.py`).

The three tool handlers (`check_availability`, `create_booking`,
`get_restaurant_info`) receive a loosely typed argument bag and deliver a
result through a completion callback; we model the argument bag as an
association list of Python values, each handler as a total function from
that bag (and, for `create_booking`, the booking store and the current
timestamp) to its result record, and the store as an explicit `List Booking`
threaded through the booking handler.
-/

namespace VoiceAgent

/-- Python runtime values that can appear in a tool-call argument bag. -/
inductive PyVal where
  | none
  | str (s : String)
  | int (n : Int)
  | bool (b : Bool)
deriving DecidableEq, Repr

/-- Python `str()` rendering, as used by f-string interpolation. -/
def pyStr : PyVal → String
  | PyVal.none => "None"
  | PyVal.str s => s
  | PyVal.int n => toString n
  | PyVal.bool b => cond b "True" "False"

/-- A tool-call argument bag (`params.arguments`): a Python dict modelled as
an association list from argument names to values. -/
abbrev Args := List (String × PyVal)

/-- Python `dict.get(key)`: the value if present, else `None`. -/
def getArg (args : Args) (k : String) : PyVal :=
  (List.lookup k args).getD PyVal.none

/-- Python `dict.get(key, default)`. -/
def getArgD (args : Args) (k : String) (d : PyVal) : PyVal :=
  (List.lookup k args).getD d

/-- Little-endian decimal digits with explicit fuel (structural recursion). -/
def digitsRevAux : Nat → Nat → List Nat
  | 0, _ => []
  | _ + 1, 0 => []
  | fuel + 1, n + 1 => (n + 1) % 10 :: digitsRevAux fuel ((n + 1) / 10)

/-- Little-endian decimal digits of `n` (empty for `0`). -/
def digitsRev (n : Nat) : List Nat := digitsRevAux n n

/-- Value of a little-endian decimal digit list. -/
def undigits : List Nat → Nat
  | [] => 0
  | d :: ds => d + 10 * undigits ds

/-- Decimal rendering of a natural number, as Python `str`/`%d` renders it. -/
def natRepr (n : Nat) : String :=
  if n = 0 then "0"
  else String.mk ((digitsRev n).reverse.map (fun d => Char.ofNat (48 + d)))

/-- Python format spec `04d`: decimal, left-padded with zeros to width 4. -/
def pad4 (n : Nat) : String :=
  let s := natRepr n
  if s.length < 4 then String.mk (List.replicate (4 - s.length) '0') ++ s else s

/-- Digit value of a character (inverse of `Char.ofNat (48 + d)` on digits). -/
def charToDigit (c : Char) : Nat := c.toNat - 48

/-- Read a decimal string back to a number (inverse of `pad4`). -/
def unrepr (s : String) : Nat :=
  undigits ((s.data.map charToDigit).reverse)

/-- A record of the booking store (`bookings_db` entry in `bot.py`). -/
structure Booking where
  booking_id : String
  name : PyVal
  phone : PyVal
  date : PyVal
  time : PyVal
  guests : PyVal
  special_requests : PyVal
  created_at : String
deriving DecidableEq, Repr

/-- Result dict delivered by `check_availability`. -/
structure AvailabilityResult where
  available : Bool
  date : PyVal
  time : PyVal
  guests : PyVal
  message : String
deriving DecidableEq, Repr

/-- Result dict delivered by `create_booking`. -/
structure BookingResult where
  booking_id : String
  status : String
  message : String
deriving DecidableEq, Repr

/-- Result dict delivered by `get_restaurant_info`. -/
structure InfoResult where
  info : String
deriving DecidableEq, Repr

/-- Tool handler `check_availability` from `bot.py`: reads `date`, `time`,
`guests` from the argument bag, stubs `available = True`, and builds the
result dict delivered to the callback.  It never touches the booking store. -/
def check_availability (args : Args) : AvailabilityResult :=
  let date := getArg args "date"
  let time := getArg args "time"
  let guests := getArg args "guests"
  let available := true
  { available := available
    date := date
    time := time
    guests := guests
    message :=
      if available then
        "Table for " ++ pyStr guests ++ " is available on " ++ pyStr date ++
          " at " ++ pyStr time
      else "No tables available" }

/-- Tool handler `create_booking` from `bot.py`: reads the fields from the
argument bag (with `special_requests` defaulting to the string `"None"`),
generates `booking_id` as `"BOOK" + format(len(bookings_db) + 1, "04d")`,
appends the new record to the store, and builds the result dict delivered to
the callback.  `now` stands for `datetime.now().isoformat()`. -/
def create_booking (bookings_db : List Booking) (args : Args) (now : String) :
    List Booking × BookingResult :=
  let name := getArg args "name"
  let phone := getArg args "phone"
  let date := getArg args "date"
  let time := getArg args "time"
  let guests := getArg args "guests"
  let special_requests := getArgD args "special_requests" (PyVal.str "None")
  let booking_id := "BOOK" ++ pad4 (bookings_db.length + 1)
  let booking : Booking :=
    { booking_id := booking_id
      name := name
      phone := phone
      date := date
      time := time
      guests := guests
      special_requests := special_requests
      created_at := now }
  (bookings_db ++ [booking],
   { booking_id := booking_id
     status := "confirmed"
     message :=
       "Booking confirmed for " ++ pyStr name ++ " on " ++ pyStr date ++
         " at " ++ pyStr time ++ " for " ++ pyStr guests ++
         " guests. Confirmation number: " ++ booking_id })

/-- The `info` dict literal inside `get_restaurant_info`. -/
def infoTable : List (String × String) :=
  [("general", "The Golden Spoon Restaurant is open Tuesday to Sunday, 11 AM to 10 PM. We are closed on Mondays."),
   ("hours", "Lunch: 11 AM - 3 PM, Dinner: 5 PM - 10 PM. Closed Mondays."),
   ("menu", "We offer Italian and Mediterranean cuisine with vegetarian, vegan, and gluten-free options."),
   ("location", "123 Main Street, Downtown. Free parking available."),
   ("capacity", "We can accommodate parties up to 12 guests.")]

/-- Python `info.get(key, default)` where `info` has string keys: a
non-string key never matches, so it falls to the default. -/
def dictGetStr (d : List (String × String)) (k : PyVal) (dflt : String) : String :=
  match k with
  | PyVal.str s => (List.lookup s d).getD dflt
  | _ => dflt

/-- Tool handler `get_restaurant_info` from `bot.py`: reads `info_type`
(defaulting to `"general"`), looks it up in the info table falling back to
the `"general"` entry, and delivers the result dict.  It never touches the
booking store. -/
def get_restaurant_info (args : Args) : InfoResult :=
  let info_type := getArgD args "info_type" (PyVal.str "general")
  { info := dictGetStr infoTable info_type ((List.lookup "general" infoTable).getD "") }

/-- One tool invocation dispatched by the agent runtime to a registered
handler. -/
inductive ToolCall where
  | avail (args : Args)
  | book (args : Args) (now : String)
  | info (args : Args)

/-- Effect of one tool invocation on the shared booking store: only
`create_booking` ever writes it; the other two handlers never reference it. -/
def stepDb (db : List Booking) : ToolCall → List Booking
  | ToolCall.avail _ => db
  | ToolCall.book args now => (create_booking db args now).1
  | ToolCall.info _ => db

/-- Store contents after `n` successive `create_booking` calls starting from
the empty store, where call `i` carries arguments `argsAt i` at timestamp
`nowAt i`. -/
def runBookings (argsAt : Nat → Args) (nowAt : Nat → String) : Nat → List Booking
  | 0 => []
  | n + 1 =>
      (create_booking (runBookings argsAt nowAt n) (argsAt n) (nowAt n)).1

/-- The argument bag of the spec scenario
`create_booking(name="Alice", phone="555-0100", date="2025-07-04", time="19:00", guests=4)`. -/
def aliceArgs : Args :=
  [("name", PyVal.str "Alice"), ("phone", PyVal.str "555-0100"),
   ("date", PyVal.str "2025-07-04"), ("time", PyVal.str "19:00"),
   ("guests", PyVal.int 4)]

/-- An argument bag with no `date` field (and no `special_requests`). -/
def noDateArgs : Args :=
  [("name", PyVal.str "Alice"), ("time", PyVal.str "19:00"),
   ("guests", PyVal.int 4)]

/-- Parsed form of a `POST /twiml` request body (`To` and `From` fields). -/
structure TwiMLRequest where
  to_number : String
  from_number : String
deriving DecidableEq, Repr

/-- Modelled from the spec: `parse_twiml_request` lives in `server_utils.py`,
which is not present under `src/`; per the spec it parses the provider
form-encoded body fields `To` and `From` into a structured request. -/
def parse_twiml_request (formTo formFrom : String) : TwiMLRequest :=
  { to_number := formTo, from_number := formFrom }

/-- Modelled from the spec: `generate_twiml` lives in `server_utils.py`,
which is not present under `src/`; per the spec it renders a fixed XML
document instructing the provider to bridge the call audio to this server's
`/ws` WebSocket endpoint, embedding the to/from numbers as stream
parameters. -/
def generate_twiml (req : TwiMLRequest) : String :=
  "<?xml version=\"1.0\" encoding=\"UTF-8\"?><Response><Connect>" ++
    "<Stream url=\"wss://SERVER_HOST/ws\">" ++
    "<Parameter name=\"to_number\" value=\"" ++ req.to_number ++ "\" />" ++
    "<Parameter name=\"from_number\" value=\"" ++ req.from_number ++ "\" />" ++
    "</Stream></Connect></Response>"

/-- The `POST /twiml` endpoint (`get_twiml` in `server.py`): parse the form
fields, render the TwiML document, return it as the XML response body. -/
def get_twiml (formTo formFrom : String) : String :=
  generate_twiml (parse_twiml_request formTo formFrom)

/-- Does `needle` occur as a contiguous run somewhere in the list? -/
def hasSub (needle : List Char) : List Char → Bool
  | [] => needle.isEmpty
  | c :: cs => List.isPrefixOf needle (c :: cs) || hasSub needle cs

/-- Substring test on the underlying character lists (executable). -/
def strContains (hay needle : String) : Bool :=
  hasSub needle.data hay.data

/-! ### Helper lemmas: decimal rendering and padding are injective -/

theorem digitsRevAux_undigits :
    ∀ fuel n, n ≤ fuel → undigits (digitsRevAux fuel n) = n := by
  intro fuel
  induction fuel with
  | zero =>
      intro n h
      have : n = 0 := Nat.le_zero.mp h
      subst this
      rfl
  | succ f ih =>
      intro n h
      match n with
      | 0 => rfl
      | m + 1 =>
          have hlt : (m + 1) / 10 < m + 1 := Nat.div_lt_self (Nat.succ_pos m) (by omega)
          have hdiv : (m + 1) / 10 ≤ f := by omega
          rw [digitsRevAux, undigits, ih _ hdiv]
          exact Nat.mod_add_div (m + 1) 10

theorem undigits_digitsRev (n : Nat) : undigits (digitsRev n) = n :=
  digitsRevAux_undigits n n (Nat.le_refl n)

theorem digitsRevAux_lt_ten :
    ∀ fuel n d, d ∈ digitsRevAux fuel n → d < 10 := by
  intro fuel
  induction fuel with
  | zero => intro n d h; cases h
  | succ f ih =>
      intro n d h
      match n with
      | 0 => cases h
      | m + 1 =>
          rw [digitsRevAux] at h
          rcases List.mem_cons.mp h with h1 | h2
          · subst h1; exact Nat.mod_lt _ (by omega)
          · exact ih _ _ h2

theorem undigits_append (xs ys : List Nat) :
    undigits (xs ++ ys) = undigits xs + 10 ^ xs.length * undigits ys := by
  induction xs with
  | nil => simp [undigits]
  | cons x xs ih =>
      show x + 10 * undigits (xs ++ ys)
          = x + 10 * undigits xs + 10 ^ (xs.length + 1) * undigits ys
      rw [ih]
      ring

theorem undigits_replicate_zero (k : Nat) :
    undigits (List.replicate k 0) = 0 := by
  induction k with
  | zero => rfl
  | succ m ih => simp [List.replicate, undigits, ih]

theorem charToDigit_ofNat : ∀ d, d < 10 → charToDigit (Char.ofNat (48 + d)) = d := by
  decide

theorem map_roundtrip_digits (l : List Nat) (h : ∀ d ∈ l, d < 10) :
    (l.map (fun d => Char.ofNat (48 + d))).map charToDigit = l := by
  induction l with
  | nil => rfl
  | cons x xs ih =>
      simp only [List.map_cons, List.mem_cons]
      rw [charToDigit_ofNat x (h x (List.mem_cons_self x xs)),
        ih (fun d hd => h d (List.mem_cons_of_mem x hd))]

theorem unrepr_natRepr (n : Nat) : unrepr (natRepr n) = n := by
  by_cases h0 : n = 0
  · subst h0; decide
  · rw [natRepr, if_neg h0, unrepr]
    have hdata : (String.mk ((digitsRev n).reverse.map (fun d => Char.ofNat (48 + d)))).data
        = (digitsRev n).reverse.map (fun d => Char.ofNat (48 + d)) := rfl
    have hb : ∀ d ∈ (digitsRev n).reverse, d < 10 := fun d hd =>
      digitsRevAux_lt_ten n n d (List.mem_reverse.mp hd)
    rw [hdata, map_roundtrip_digits ((digitsRev n).reverse) hb,
      List.reverse_reverse, undigits_digitsRev]

theorem unrepr_pad4 (n : Nat) : unrepr (pad4 n) = n := by
  rw [pad4]
  by_cases hlen : (natRepr n).length < 4
  · simp only [hlen, if_true]
    rw [unrepr, String.data_append]
    have hmk : (String.mk (List.replicate (4 - (natRepr n).length) '0')).data
        = List.replicate (4 - (natRepr n).length) '0' := rfl
    rw [hmk, List.map_append, List.reverse_append, undigits_append,
      List.map_replicate]
    have h0 : charToDigit '0' = 0 := rfl
    rw [h0, List.reverse_replicate, undigits_replicate_zero, Nat.mul_zero,
      Nat.add_zero]
    exact unrepr_natRepr n
  · simp only [hlen, if_false]
    exact unrepr_natRepr n

theorem pad4_injective {m n : Nat} (h : pad4 m = pad4 n) : m = n := by
  rw [← unrepr_pad4 m, h, unrepr_pad4]

theorem bookId_injective {m n : Nat}
    (h : "BOOK" ++ pad4 m = "BOOK" ++ pad4 n) : m = n := by
  apply pad4_injective
  have hd := congrArg String.data h
  rw [String.data_append, String.data_append] at hd
  exact String.ext (List.append_cancel_left hd)

/-! ### Helper lemmas: booking-store evolution -/

theorem create_booking_fst (db : List Booking) (args : Args) (now : String) :
    (create_booking db args now).1
      = db ++ [{ booking_id := "BOOK" ++ pad4 (db.length + 1)
                 name := getArg args "name"
                 phone := getArg args "phone"
                 date := getArg args "date"
                 time := getArg args "time"
                 guests := getArg args "guests"
                 special_requests := getArgD args "special_requests" (PyVal.str "None")
                 created_at := now }] := rfl

theorem create_booking_length (db : List Booking) (args : Args) (now : String) :
    (create_booking db args now).1.length = db.length + 1 := by
  rw [create_booking_fst, List.length_append]
  rfl

theorem runBookings_length (argsAt : Nat → Args) (nowAt : Nat → String) :
    ∀ n, (runBookings argsAt nowAt n).length = n := by
  intro n
  induction n with
  | zero => rfl
  | succ k ih => rw [runBookings, create_booking_length, ih]

theorem runBookings_ids (argsAt : Nat → Args) (nowAt : Nat → String) :
    ∀ n, (runBookings argsAt nowAt n).map (fun b => b.booking_id)
      = (List.range n).map (fun i => "BOOK" ++ pad4 (i + 1)) := by
  intro n
  induction n with
  | zero => rfl
  | succ k ih =>
      rw [runBookings, create_booking_fst, List.map_append, ih,
        runBookings_length, List.range_succ, List.map_append]
      rfl

theorem lookup_mem_values {α β : Type} [BEq α] :
    ∀ (l : List (α × β)) (a : α) (b : β),
      List.lookup a l = some b → b ∈ l.map Prod.snd := by
  intro l
  induction l with
  | nil => intro a b h; cases h
  | cons p rest ih =>
      intro a b h
      obtain ⟨k, v⟩ := p
      rw [List.lookup] at h
      cases hka : a == k with
      | true =>
          rw [hka] at h
          cases h
          exact List.mem_cons_self _ _
      | false =>
          rw [hka] at h
          exact List.mem_cons_of_mem _ (ih a b h)

/-! ### Claim theorems -/

/-- C1: for every N ≥ 1, a sequence of N `create_booking` calls starting from
the empty store assigns exactly the identifiers `"BOOK" ++ pad4 1` through
`"BOOK" ++ pad4 N` in call order; they are pairwise distinct and carry
strictly increasing counters. -/
theorem create_booking_ids_sequential (N : Nat) (argsAt : Nat → Args)
    (nowAt : Nat → String) (_hN : 1 ≤ N) :
    (runBookings argsAt nowAt N).length = N ∧
    (runBookings argsAt nowAt N).map (fun b => b.booking_id)
      = (List.range N).map (fun i => "BOOK" ++ pad4 (i + 1)) ∧
    ((runBookings argsAt nowAt N).map (fun b => b.booking_id)).Nodup ∧
    List.Pairwise
      (fun x y => ∃ m k, m < k ∧ x = "BOOK" ++ pad4 m ∧ y = "BOOK" ++ pad4 k)
      ((runBookings argsAt nowAt N).map (fun b => b.booking_id)) := by
  have hinj : Function.Injective (fun i => "BOOK" ++ pad4 (i + 1)) := by
    intro a b h
    have := bookId_injective h
    omega
  refine ⟨runBookings_length argsAt nowAt N, runBookings_ids argsAt nowAt N,
    ?_, ?_⟩
  · rw [runBookings_ids]
    exact (List.nodup_range N).map hinj
  · rw [runBookings_ids]
    exact List.Pairwise.map _ (fun a b hab => ⟨a + 1, b + 1, by omega, rfl, rfl⟩)
      (List.pairwise_lt_range N)

/-- Witness for C1: two sequential calls with the Alice arguments yield
`"BOOK0001"` then `"BOOK0002"` and leave the store with length 2. -/
theorem create_booking_ids_sequential_witness :
    1 ≤ 2 ∧
    (runBookings (fun _ => aliceArgs) (fun _ => "2025-07-01T12:00:00") 2).map
        (fun b => b.booking_id) = ["BOOK0001", "BOOK0002"] ∧
    (runBookings (fun _ => aliceArgs) (fun _ => "2025-07-01T12:00:00") 2).length
      = 2 := by
  have h := create_booking_ids_sequential 2 (fun _ => aliceArgs)
    (fun _ => "2025-07-01T12:00:00") (by decide)
  refine ⟨by decide, ?_, h.1⟩
  rw [h.2.1]
  decide

/-- C2: every `create_booking` invocation appends exactly one record; over
any sequence of handler invocations the old store stays an unmodified
prefix, so the length never decreases. -/
theorem booking_store_append_only :
    (∀ (db : List Booking) (args : Args) (now : String),
      ∃ b, (create_booking db args now).1 = db ++ [b]) ∧
    (∀ (db : List Booking) (tc : ToolCall), db <+: stepDb db tc) ∧
    (∀ (db : List Booking) (calls : List ToolCall),
      db <+: List.foldl stepDb db calls) ∧
    (∀ (db : List Booking) (calls : List ToolCall),
      db.length ≤ (List.foldl stepDb db calls).length) := by
  have hstep : ∀ (db : List Booking) (tc : ToolCall), db <+: stepDb db tc := by
    intro db tc
    cases tc with
    | avail a => exact List.prefix_refl db
    | book a n => exact ⟨_, rfl⟩
    | info a => exact List.prefix_refl db
  have hfold : ∀ (calls : List ToolCall) (db : List Booking),
      db <+: List.foldl stepDb db calls := by
    intro calls
    induction calls with
    | nil => intro db; exact List.prefix_refl db
    | cons c cs ih => intro db; exact (hstep db c).trans (ih (stepDb db c))
  exact ⟨fun db args now => ⟨_, rfl⟩, hstep, fun db calls => hfold calls db,
    fun db calls => (hfold calls db).length_le⟩

/-- C4: for every argument bag, the result of `check_availability` has
`available = true`. -/
theorem check_availability_always_true (args : Args) :
    (check_availability args).available = true := rfl

/-- C8: `check_availability` and `get_restaurant_info` leave the booking
store unchanged; any tool invocation that changes the store is a
`create_booking` call. -/
theorem read_handlers_leave_store_unchanged :
    (∀ (db : List Booking) (args : Args), stepDb db (ToolCall.avail args) = db) ∧
    (∀ (db : List Booking) (args : Args), stepDb db (ToolCall.info args) = db) ∧
    (∀ (db : List Booking) (tc : ToolCall), stepDb db tc ≠ db →
      ∃ args now, tc = ToolCall.book args now) := by
  refine ⟨fun _ _ => rfl, fun _ _ => rfl, ?_⟩
  intro db tc h
  cases tc with
  | avail a => exact absurd rfl h
  | book a n => exact ⟨a, n, rfl⟩
  | info a => exact absurd rfl h

/-- Witness for C8: a concrete `create_booking` invocation does change the
empty store, and the theorem identifies it as a booking call. -/
theorem read_handlers_leave_store_unchanged_witness :
    stepDb [] (ToolCall.book [] "t") ≠ [] ∧
    ∃ args now, ToolCall.book ([] : Args) "t" = ToolCall.book args now := by
  have h := read_handlers_leave_store_unchanged.2.2 [] (ToolCall.book [] "t")
  exact ⟨by decide, h (by decide)⟩

/-- C9: the result of `create_booking` carries the booking id of the record
just appended, status `"confirmed"`, and a message ending in that id. -/
theorem create_booking_result_consistent (db : List Booking) (args : Args)
    (now : String) :
    ∃ b, (create_booking db args now).1.getLast? = some b ∧
      b.booking_id = (create_booking db args now).2.booking_id ∧
      (create_booking db args now).2.status = "confirmed" ∧
      ∃ s, (create_booking db args now).2.message
        = s ++ (create_booking db args now).2.booking_id := by
  refine ⟨{ booking_id := "BOOK" ++ pad4 (db.length + 1)
            name := getArg args "name"
            phone := getArg args "phone"
            date := getArg args "date"
            time := getArg args "time"
            guests := getArg args "guests"
            special_requests := getArgD args "special_requests" (PyVal.str "None")
            created_at := now }, ?_, rfl, rfl, ⟨_, rfl⟩⟩
  rw [create_booking_fst]
  exact List.getLast?_concat _

/-- Helper: skipping a non-matching key in an association-list lookup. -/
theorem lookup_cons_ne {β : Type} (s k : String) (v : β)
    (rest : List (String × β)) (h : s ≠ k) :
    List.lookup s ((k, v) :: rest) = List.lookup s rest := by
  rw [List.lookup]
  have hb : (s == k) = false := by simp [h]
  rw [hb]

/-- C5: handlers are total on every argument bag; a missing `date` argument
shows up as the rendering `"None"` in both handlers' messages. -/
theorem handlers_render_missing_date_as_none (args : Args) (db : List Booking)
    (now : String) (hd : List.lookup "date" args = none) :
    (check_availability args).message
      = "Table for " ++ pyStr (getArg args "guests") ++ " is available on "
          ++ "None" ++ " at " ++ pyStr (getArg args "time") ∧
    (create_booking db args now).2.message
      = "Booking confirmed for " ++ pyStr (getArg args "name") ++ " on "
          ++ "None" ++ " at " ++ pyStr (getArg args "time") ++ " for "
          ++ pyStr (getArg args "guests") ++ " guests. Confirmation number: "
          ++ ("BOOK" ++ pad4 (db.length + 1)) := by
  have hdate : getArg args "date" = PyVal.none := by rw [getArg, hd]; rfl
  constructor
  · show "Table for " ++ pyStr (getArg args "guests") ++ " is available on "
        ++ pyStr (getArg args "date") ++ " at " ++ pyStr (getArg args "time") = _
    rw [hdate]
    rfl
  · show "Booking confirmed for " ++ pyStr (getArg args "name") ++ " on "
        ++ pyStr (getArg args "date") ++ " at " ++ pyStr (getArg args "time")
        ++ " for " ++ pyStr (getArg args "guests")
        ++ " guests. Confirmation number: "
        ++ ("BOOK" ++ pad4 (db.length + 1)) = _
    rw [hdate]
    rfl

/-- Witness for C5: a concrete bag without a `date` key. -/
theorem handlers_render_missing_date_as_none_witness :
    List.lookup "date" noDateArgs = none ∧
    ((check_availability noDateArgs).message
        = "Table for " ++ pyStr (getArg noDateArgs "guests")
            ++ " is available on " ++ "None" ++ " at "
            ++ pyStr (getArg noDateArgs "time") ∧
      (create_booking [] noDateArgs "2025-07-01T12:00:00").2.message
        = "Booking confirmed for " ++ pyStr (getArg noDateArgs "name")
            ++ " on " ++ "None" ++ " at " ++ pyStr (getArg noDateArgs "time")
            ++ " for " ++ pyStr (getArg noDateArgs "guests")
            ++ " guests. Confirmation number: "
            ++ ("BOOK" ++ pad4 (([] : List Booking).length + 1))) :=
  ⟨by decide, handlers_render_missing_date_as_none noDateArgs [] "2025-07-01T12:00:00" (by decide)⟩

/-- C3: `get_restaurant_info` returns each category's exact fixed string for
the five known categories, and the `"general"` string for any unknown or
absent `info_type`. -/
theorem get_restaurant_info_exact (args : Args) :
    (List.lookup "info_type" args = some (PyVal.str "general") →
      (get_restaurant_info args).info
        = "The Golden Spoon Restaurant is open Tuesday to Sunday, 11 AM to 10 PM. We are closed on Mondays.") ∧
    (List.lookup "info_type" args = some (PyVal.str "hours") →
      (get_restaurant_info args).info
        = "Lunch: 11 AM - 3 PM, Dinner: 5 PM - 10 PM. Closed Mondays.") ∧
    (List.lookup "info_type" args = some (PyVal.str "menu") →
      (get_restaurant_info args).info
        = "We offer Italian and Mediterranean cuisine with vegetarian, vegan, and gluten-free options.") ∧
    (List.lookup "info_type" args = some (PyVal.str "location") →
      (get_restaurant_info args).info
        = "123 Main Street, Downtown. Free parking available.") ∧
    (List.lookup "info_type" args = some (PyVal.str "capacity") →
      (get_restaurant_info args).info
        = "We can accommodate parties up to 12 guests.") ∧
    (∀ v, List.lookup "info_type" args = some v →
      v ∉ [PyVal.str "general", PyVal.str "hours", PyVal.str "menu",
           PyVal.str "location", PyVal.str "capacity"] →
      (get_restaurant_info args).info
        = "The Golden Spoon Restaurant is open Tuesday to Sunday, 11 AM to 10 PM. We are closed on Mondays.") ∧
    (List.lookup "info_type" args = none →
      (get_restaurant_info args).info
        = "The Golden Spoon Restaurant is open Tuesday to Sunday, 11 AM to 10 PM. We are closed on Mondays.") := by
  have hsome : ∀ (v : PyVal), List.lookup "info_type" args = some v →
      (get_restaurant_info args).info
        = dictGetStr infoTable v ((List.lookup "general" infoTable).getD "") := by
    intro v h
    show dictGetStr infoTable ((List.lookup "info_type" args).getD (PyVal.str "general"))
        ((List.lookup "general" infoTable).getD "") = _
    rw [h]
    rfl
  refine ⟨fun h => by rw [hsome _ h]; decide,
    fun h => by rw [hsome _ h]; decide,
    fun h => by rw [hsome _ h]; decide,
    fun h => by rw [hsome _ h]; decide,
    fun h => by rw [hsome _ h]; decide,
    ?_, ?_⟩
  · intro v h hmem
    rw [hsome _ h]
    cases v with
    | str s =>
        have h1 : s ≠ "general" := fun e => hmem (by rw [e]; simp)
        have h2 : s ≠ "hours" := fun e => hmem (by rw [e]; simp)
        have h3 : s ≠ "menu" := fun e => hmem (by rw [e]; simp)
        have h4 : s ≠ "location" := fun e => hmem (by rw [e]; simp)
        have h5 : s ≠ "capacity" := fun e => hmem (by rw [e]; simp)
        show (List.lookup s infoTable).getD _ = _
        rw [infoTable, lookup_cons_ne _ _ _ _ h1, lookup_cons_ne _ _ _ _ h2,
          lookup_cons_ne _ _ _ _ h3, lookup_cons_ne _ _ _ _ h4,
          lookup_cons_ne _ _ _ _ h5]
        rfl
    | none => rfl
    | int n => rfl
    | bool b => rfl
  · intro h
    show dictGetStr infoTable ((List.lookup "info_type" args).getD (PyVal.str "general"))
        ((List.lookup "general" infoTable).getD "") = _
    rw [h]
    decide

/-- Witness for C3: the spec scenarios for `"hours"`, an unknown category,
and an absent `info_type`. -/
theorem get_restaurant_info_exact_witness :
    (get_restaurant_info [("info_type", PyVal.str "hours")]).info
      = "Lunch: 11 AM - 3 PM, Dinner: 5 PM - 10 PM. Closed Mondays." ∧
    (get_restaurant_info [("info_type", PyVal.str "bogus")]).info
      = "The Golden Spoon Restaurant is open Tuesday to Sunday, 11 AM to 10 PM. We are closed on Mondays." ∧
    (get_restaurant_info []).info
      = "The Golden Spoon Restaurant is open Tuesday to Sunday, 11 AM to 10 PM. We are closed on Mondays." :=
  ⟨(get_restaurant_info_exact [("info_type", PyVal.str "hours")]).2.1 (by decide),
   (get_restaurant_info_exact [("info_type", PyVal.str "bogus")]).2.2.2.2.2.1
     (PyVal.str "bogus") (by decide) (by decide),
   (get_restaurant_info_exact []).2.2.2.2.2.2 (by decide)⟩

/-- C10: whatever the argument bag holds under `info_type` (including no
entry, a non-string, or an unknown string), `get_restaurant_info` delivers
one of the five fixed info strings. -/
theorem get_restaurant_info_in_table (args : Args) :
    (get_restaurant_info args).info ∈
      ["The Golden Spoon Restaurant is open Tuesday to Sunday, 11 AM to 10 PM. We are closed on Mondays.",
       "Lunch: 11 AM - 3 PM, Dinner: 5 PM - 10 PM. Closed Mondays.",
       "We offer Italian and Mediterranean cuisine with vegetarian, vegan, and gluten-free options.",
       "123 Main Street, Downtown. Free parking available.",
       "We can accommodate parties up to 12 guests."] := by
  show dictGetStr infoTable (getArgD args "info_type" (PyVal.str "general"))
      ((List.lookup "general" infoTable).getD "") ∈ _
  rcases hv : getArgD args "info_type" (PyVal.str "general") with _ | s | n | b
  · decide
  · show (List.lookup s infoTable).getD
        ((List.lookup "general" infoTable).getD "") ∈ _
    cases hs : List.lookup s infoTable with
    | none => decide
    | some val => exact lookup_mem_values infoTable s val hs
  · exact List.mem_cons_self _ _
  · exact List.mem_cons_self _ _

/-- C6 counterexample: calling `create_booking` without `special_requests`
stores the string `"None"`, not the lowercase sentinel `"none"`. -/
theorem create_booking_special_requests_counterexample :
    ((create_booking [] aliceArgs "2025-07-01T12:00:00").1.map
        (fun b => b.special_requests)) = [PyVal.str "None"] ∧
    PyVal.str "None" ≠ PyVal.str "none" := by decide

/-- C6 amended: when `special_requests` is absent, the appended record's
special-requests field is the default sentinel string `"None"`. -/
theorem create_booking_special_requests_default (db : List Booking)
    (args : Args) (now : String)
    (h : List.lookup "special_requests" args = none) :
    ∃ b, (create_booking db args now).1 = db ++ [b] ∧
      b.special_requests = PyVal.str "None" := by
  refine ⟨_, rfl, ?_⟩
  show getArgD args "special_requests" (PyVal.str "None") = PyVal.str "None"
  rw [getArgD, h]
  rfl

/-- Witness for C6 amended: the Alice bag has no `special_requests` key. -/
theorem create_booking_special_requests_default_witness :
    List.lookup "special_requests" aliceArgs = none ∧
    ∃ b, (create_booking [] aliceArgs "2025-07-01T12:00:00").1 = [] ++ [b] ∧
      b.special_requests = PyVal.str "None" :=
  ⟨by decide,
   create_booking_special_requests_default [] aliceArgs "2025-07-01T12:00:00" (by decide)⟩

/-- C7: the `/twiml` response for `To=+15551234567`, `From=+15557654321`
carries both numbers as stream parameters and references the `/ws`
endpoint. -/
theorem twiml_response_contains_numbers_and_ws :
    strContains (get_twiml "+15551234567" "+15557654321")
        "<Parameter name=\"to_number\" value=\"+15551234567\" />" = true ∧
    strContains (get_twiml "+15551234567" "+15557654321")
        "<Parameter name=\"from_number\" value=\"+15557654321\" />" = true ∧
    strContains (get_twiml "+15551234567" "+15557654321") "/ws" = true := by
  decide

end VoiceAgent
